import Mathlib

/-
Verification development for the site-safety checker core
(src/lib/auth-storage.ts, safety-checker section).

Strings are embedded as `List Char`.  JavaScript string primitives
(`trim`, `toLowerCase`, the `\s` regex class, `String.prototype.split`,
`includes`, `endsWith`, `startsWith`) are modelled as executable functions
over `List Char`.  The WHATWG `new URL(...)` hostname extraction is
modelled for `http:`/`https:` URLs; numbers that the source holds in
JavaScript doubles are modelled as `Int` (all scores are integers) and
`Rat` (the mocked domain ages and random draws).
-/

/-- The character class matched by the JavaScript regex `\s` (and removed
by `String.prototype.trim`): ASCII whitespace, NBSP, the Unicode space
separators, line and paragraph separators and the BOM. -/
def isJsWs (c : Char) : Bool :=
  c = ' ' || c = '\t' || c = '\n' || c = '\r' || c = '\x0b' || c = '\x0c' ||
  c = ' ' || c = ' ' || (' ' ≤ c && c ≤ ' ') ||
  c = ' ' || c = ' ' || c = ' ' || c = ' ' ||
  c = '　' || c = '﻿'

/-- Case mapping pairs of `String.prototype.toLowerCase`, restricted to
ASCII letters plus the uppercase forms of the non-ASCII characters that
occur in the checker's lookalike table (Greek omicron, Cyrillic o, i,
palochka, a, e, io, and Latin alpha). -/
def lowerPairs : List (Char × Char) :=
  [('A', 'a'), ('B', 'b'), ('C', 'c'), ('D', 'd'), ('E', 'e'), ('F', 'f'),
   ('G', 'g'), ('H', 'h'), ('I', 'i'), ('J', 'j'), ('K', 'k'), ('L', 'l'),
   ('M', 'm'), ('N', 'n'), ('O', 'o'), ('P', 'p'), ('Q', 'q'), ('R', 'r'),
   ('S', 's'), ('T', 't'), ('U', 'u'), ('V', 'v'), ('W', 'w'), ('X', 'x'),
   ('Y', 'y'), ('Z', 'z'),
   ('Ο', 'ο'), ('О', 'о'), ('І', 'і'),
   ('Ӏ', 'ӏ'), ('А', 'а'), ('Е', 'е'),
   ('Ё', 'ё'), ('Ɑ', 'ɑ')]

/-- Character-wise model of `String.prototype.toLowerCase`. -/
def jsToLowerChar (c : Char) : Char :=
  match lowerPairs.find? (fun p => p.1 == c) with
  | some p => p.2
  | none => c

/-- Model of `String.prototype.trim`: drop `\s` characters from both ends. -/
def jsTrim (l : List Char) : List Char :=
  ((l.dropWhile isJsWs).reverse.dropWhile isJsWs).reverse

/-- Model of the source's `url.replace(/\s/g, '')`: remove every
whitespace character. -/
def jsStripWs (l : List Char) : List Char :=
  l.filter (fun c => !isJsWs c)

/-- Model of the source's `url.replace(/\/+$/, '')`: remove the maximal
run of trailing slashes (i.e. all trailing slashes). -/
def dropTrailingSlashes (l : List Char) : List Char :=
  (l.reverse.dropWhile (fun c => c == '/')).reverse

/-- `normalizeUrl` from the source: trim and lowercase, strip whitespace,
prepend `https://` when no scheme prefix is present, then strip trailing
slashes. -/
def normalizeUrl (input : List Char) : List Char :=
  let url := (jsTrim input).map jsToLowerChar
  let url := jsStripWs url
  let url :=
    if ("http://".data).isPrefixOf url || ("https://".data).isPrefixOf url then url
    else ("https://".data) ++ url
  dropTrailingSlashes url

/-- ASCII decimal digit test. -/
def isAsciiDigit (c : Char) : Bool :=
  '0' ≤ c && c ≤ '9'

/-- The WHATWG forbidden domain code points: C0 controls, DEL, space and
the delimiter characters that make `new URL(...)` throw when they occur
in the host of a special-scheme URL. -/
def forbiddenDomainChar (c : Char) : Bool :=
  c.toNat ≤ 0x1f || c.toNat = 0x7f || c = ' ' || c = '#' || c = '/' ||
  c = ':' || c = '<' || c = '>' || c = '?' || c = '@' || c = '[' ||
  c = '\\' || c = ']' || c = '^' || c = '|' || c = '%'

/-- The part of an authority after its last `@` (the userinfo separator);
the whole list when no `@` is present. -/
def afterLastAtSign (l : List Char) : List Char :=
  (l.reverse.takeWhile (fun c => c != '@')).reverse

/-- Numeric value of a list of ASCII digits. -/
def digitsToNat (l : List Char) : Nat :=
  l.foldl (fun acc c => acc * 10 + (c.toNat - '0'.toNat)) 0

/-- Model of `new URL(s).hostname` for a string that begins with
`http://` or `https://`: the authority runs to the first `/`, `?`, `#`
or `\`, userinfo up to the last `@` is dropped, the host ends at the
first `:` (the rest is the port, which must be decimal and at most
65535), and a host that is empty or contains a forbidden domain
character makes the parse fail (the constructor throws).  Strings
without one of the two scheme prefixes — the only other strings the
checker ever passes, of the shape `http:`/`https:` — fail to parse.
IDNA/punycode conversion of non-ASCII hosts is not modelled. -/
def jsHostname (s : List Char) : Option (List Char) :=
  let go : List Char → Option (List Char) := fun rest =>
    let auth := rest.takeWhile (fun c => !(c = '/' || c = '?' || c = '#' || c = '\\'))
    let hp := afterLastAtSign auth
    let host := hp.takeWhile (fun c => c != ':')
    let port := (hp.dropWhile (fun c => c != ':')).drop 1
    if host.isEmpty then none
    else if host.any forbiddenDomainChar then none
    else if !port.all isAsciiDigit then none
    else if !port.isEmpty && digitsToNat port > 65535 then none
    else some host
  if ("http://".data).isPrefixOf s then go (s.drop 7)
  else if ("https://".data).isPrefixOf s then go (s.drop 8)
  else none

/-- `extractDomain` from the source: the hostname of the normalized URL,
or the empty string when URL parsing fails. -/
def extractDomain (url : List Char) : List Char :=
  (jsHostname (normalizeUrl url)).getD []

/-- The query string of a URL: the characters strictly after the first
`?` and before the first `#`. -/
def jsQuery (s : List Char) : List Char :=
  ((s.takeWhile (fun c => c != '#')).dropWhile (fun c => c != '?')).drop 1

/-- Modelled: the length of `new URL(s).searchParams.toString()`,
approximated by the raw query length.  The two agree on query strings
made of unescaped `key=value&key=value` pairs, and the checker only
compares this length with the threshold 200. -/
def searchParamsLen (s : List Char) : Nat :=
  (jsQuery s).length

/-- Model of `String.prototype.includes`: `pat` occurs as a contiguous
substring of `l`. -/
def jsIncludes (l pat : List Char) : Bool :=
  (List.range (l.length + 1)).any (fun i => pat.isPrefixOf (l.drop i))

/-- Signal status values. -/
inductive SigStatus where
  | good
  | warning
  | bad
  | unknown
deriving DecidableEq, Repr

/-- The `Signal` record of the source.  `requiresApi` is optional in the
source and defaults to absent, modelled as `false`. -/
structure Signal where
  id : List Char
  name : List Char
  icon : List Char
  status : SigStatus
  score : Int
  maxScore : Int
  explanation : List Char
  tooltip : List Char
  requiresApi : Bool := false
deriving DecidableEq, Repr

/-- The four verdict tiers. -/
inductive Verdict where
  | safe
  | likelySafe
  | suspicious
  | scam
deriving DecidableEq, Repr

/-- The `CheckResult` record of the source.  The `timestamp` field
records the wall-clock completion time and is omitted from the model. -/
structure CheckResult where
  url : List Char
  normalizedUrl : List Char
  score : Int
  verdict : Verdict
  verdictText : List Char
  signals : List Signal
  suggestions : List (List Char)
  corsBlocked : Bool
deriving DecidableEq, Repr

namespace STRINGS

def safe : List Char := ("Safe").data

def likelySafe : List Char := ("Likely Safe").data

def suspicious : List Char := ("Suspicious").data

def scam : List Char := ("Scam / Dangerous").data

end STRINGS

namespace STRINGS.signals

def ssl : List Char := ("SSL/TLS Certificate").data

def domainAge : List Char := ("Domain Age").data

def urlPatterns : List Char := ("URL Patterns").data

def blacklist : List Char := ("Blacklist Status").data

def content : List Char := ("Content Analysis").data

def redirect : List Char := ("Redirect Behavior").data

end STRINGS.signals

/-- Suspicious TLDs commonly used in phishing. -/
def SUSPICIOUS_TLDS : List (List Char) :=
  [(".tk").data, (".ml").data, (".ga").data, (".cf").data, (".gq").data,
   (".xyz").data, (".top").data, (".work").data, (".click").data,
   (".link").data, (".zip").data, (".mov").data]

/-- Known safe TLDs. -/
def TRUSTED_TLDS : List (List Char) :=
  [(".gov").data, (".edu").data, (".mil").data]

/-- Common brand names used to detect impersonation. -/
def BRAND_PATTERNS : List (List Char) :=
  [("paypal").data, ("apple").data, ("google").data, ("microsoft").data,
   ("amazon").data, ("facebook").data, ("netflix").data, ("bank").data,
   ("secure").data, ("login").data, ("account").data, ("verify").data,
   ("update").data]

/-- The regex `^(\d{1,3}\.){3}\d{1,3}$`: four dot-separated groups of one
to three ASCII digits. -/
def looksLikeIpv4 (domain : List Char) : Bool :=
  let parts := domain.splitOn '.'
  parts.length == 4 &&
    parts.all (fun p => 1 ≤ p.length && p.length ≤ 3 && p.all isAsciiDigit)

/-- The mutable `score` accumulation of `checkUrlPatterns`, one step per
condition in the source's evaluation order: IP literal +5, suspicious
TLD +4, trusted TLD subtract 5 flooring at 0, excess subdomains +3,
long host +2, many hyphens +3, brand token +5, long query +2. -/
def urlPatternScoreSteps (isIp hasSuspiciousTld hasTrustedTld manySubdomains
    longDomain manyHyphens hasBrandPattern complexQuery : Bool) : Int :=
  let score : Int := 0
  let score := if isIp then score + 5 else score
  let score := if hasSuspiciousTld then score + 4 else score
  let score := if hasTrustedTld then max 0 (score - 5) else score
  let score := if manySubdomains then score + 3 else score
  let score := if longDomain then score + 2 else score
  let score := if manyHyphens then score + 3 else score
  let score := if hasBrandPattern then score + 5 else score
  if complexQuery then score + 2 else score

/-- `checkUrlPatterns` from the source: evaluate the pattern conditions,
accumulate the score through `urlPatternScoreSteps`, collect the
triggered-issue descriptions in the same order, and build the signal
with the score clamped to 20. -/
def checkUrlPatterns (url : List Char) : Signal :=
  let normalized := normalizeUrl url
  let domain := extractDomain url
  let isIp := looksLikeIpv4 domain
  let hasSuspiciousTld := SUSPICIOUS_TLDS.any (fun tld => tld.isSuffixOf domain)
  let hasTrustedTld := TRUSTED_TLDS.any (fun tld => tld.isSuffixOf domain)
  let subdomainCount : Int := (domain.splitOn '.').length - 2
  let manySubdomains := decide (subdomainCount > 3)
  let longDomain := decide (domain.length > 50)
  let manyHyphens := decide (domain.count '-' > 2)
  let hasBrandPattern := BRAND_PATTERNS.any (fun brand =>
    jsIncludes domain brand &&
      !(domain == brand ++ (".com").data || domain == ("www.").data ++ brand ++ (".com").data))
  let complexQuery := (jsHostname normalized).isSome && decide (searchParamsLen normalized > 200)
  let score := urlPatternScoreSteps isIp hasSuspiciousTld hasTrustedTld manySubdomains
    longDomain manyHyphens hasBrandPattern complexQuery
  let issues : List (List Char) :=
    (if isIp then [("Uses IP address instead of domain name").data] else []) ++
    (if hasSuspiciousTld then [("Uses a TLD commonly associated with spam").data] else []) ++
    (if manySubdomains then [("Unusually many subdomains").data] else []) ++
    (if longDomain then [("Unusually long domain name").data] else []) ++
    (if manyHyphens then [("Multiple hyphens in domain").data] else []) ++
    (if hasBrandPattern then [("May be impersonating a known brand").data] else []) ++
    (if complexQuery then [("Unusually complex URL parameters").data] else [])
  let status := if score = 0 then SigStatus.good
                else if score < 5 then SigStatus.warning
                else SigStatus.bad
  { id := ("url-patterns").data
    name := STRINGS.signals.urlPatterns
    icon := ("link").data
    status := status
    score := min score 20
    maxScore := 20
    explanation := if issues.length > 0 then List.intercalate ((". ").data) issues
                   else ("URL structure appears normal").data
    tooltip := ("Checks for suspicious patterns in the URL like unusual TLDs, IP addresses, or brand impersonation attempts.").data }

/-- The result record of `checkHomographAttack`. -/
structure HomographResult where
  isHomograph : Bool
  explanation : List Char
deriving DecidableEq, Repr

/-- The lookalike-character table: visually-confusable substitutes for the
Latin letters o, l, a, e — including the ASCII digits 0 and 1. -/
def lookalikes : List (Char × List Char) :=
  [('o', ['0', 'ο', 'о']),
   ('l', ['1', 'і', 'ӏ']),
   ('a', ['а', 'ɑ']),
   ('e', ['е', 'ё'])]

/-- `checkHomographAttack` from the source: flag punycode (`xn--`) hosts,
then hosts containing any character of the lookalike table. -/
def checkHomographAttack (url : List Char) : HomographResult :=
  let domain := extractDomain url
  if jsIncludes domain (("xn--").data) then
    { isHomograph := true
      explanation := ("Domain uses internationalized characters (punycode) which may be used to impersonate legitimate sites").data }
  else if lookalikes.any (fun p => p.2.any (fun fake => domain.contains fake)) then
    { isHomograph := true
      explanation := ("Domain may contain lookalike characters designed to impersonate legitimate sites").data }
  else
    { isHomograph := false
      explanation := ("No homograph attack detected").data }

/-- `checkSsl` from the source: good with score 0 on `https://` URLs,
bad with score 10 otherwise. -/
def checkSsl (url : List Char) : Signal :=
  let normalized := normalizeUrl url
  let hasHttps := ("https://".data).isPrefixOf normalized
  { id := ("ssl").data
    name := STRINGS.signals.ssl
    icon := if hasHttps then ("lock").data else ("unlock").data
    status := if hasHttps then SigStatus.good else SigStatus.bad
    score := if hasHttps then 0 else 10
    maxScore := 10
    explanation := if hasHttps then ("Site uses HTTPS encryption").data
                   else ("Site does not use HTTPS - your connection is not encrypted").data
    tooltip := ("HTTPS encrypts data between your browser and the website, protecting sensitive information.").data }

/-- Modelled: `Number.prototype.toFixed(1)` for the mocked domain age,
using round-half-up to one decimal place. -/
def ratToFixed1 (q : ℚ) : List Char :=
  let n := round (q * 10)
  if n < 0 then
    '-' :: ((Nat.repr (n.natAbs / 10)).data ++ ('.' :: (Nat.repr (n.natAbs % 10)).data))
  else
    (Nat.repr (n.toNat / 10)).data ++ ('.' :: (Nat.repr (n.toNat % 10)).data)

/-- Decimal representation of an integer. -/
def intRepr (n : Int) : List Char :=
  if n < 0 then '-' :: (Nat.repr n.natAbs).data else (Nat.repr n.toNat).data

/-- The environment of a single assessment: the outcomes of the
simulated external interactions.  `fetchOk` says whether the content
fetch succeeded (in the source: the `fetch` promise resolved before the
5s abort), `isHtml` whether its content type included `text/html`, and
the two `Rat` fields are the `Math.random()` draws consumed by the
whois and blacklist mocks. -/
structure MockEnv where
  fetchOk : Bool
  isHtml : Bool
  whoisRand : ℚ
  blacklistRand : ℚ
deriving DecidableEq, Repr

/-- `safeBrowsingLookup` from the source (mock Google Safe Browsing):
a threat iff the domain contains `phishing` or `malware`. -/
def safeBrowsingLookup (url : List Char) : Signal :=
  let domain := extractDomain url
  let isThreat := jsIncludes domain (("phishing").data) || jsIncludes domain (("malware").data)
  { id := ("safe-browsing").data
    name := ("Google Safe Browsing").data
    icon := ("shield").data
    status := if isThreat then SigStatus.bad else SigStatus.good
    score := if isThreat then 25 else 0
    maxScore := 25
    explanation := if isThreat then ("Flagged as SOCIAL_ENGINEERING by Google Safe Browsing").data
                   else ("Not found in Google Safe Browsing threat database").data
    tooltip := ("Google Safe Browsing checks URLs against databases of known phishing, malware, and unwanted software.").data
    requiresApi := true }

/-- Mock domain ages for demos. -/
def mockAges : List (List Char × ℚ) :=
  [(("google.com").data, 26), (("amazon.com").data, 28),
   (("microsoft.com").data, 32), (("facebook.com").data, 20)]

/-- The property names every plain JavaScript object inherits from
`Object.prototype`.  The lookup `mockAges[domain]` consults the
prototype chain, so these names read a truthy non-number instead of
`undefined`.  After normalization the domain is lowercase, which makes
`constructor` and `__proto__` the reachable ones through a URL host. -/
def objectPrototypeKeys : List (List Char) :=
  [("constructor").data, ("hasOwnProperty").data, ("isPrototypeOf").data,
   ("propertyIsEnumerable").data, ("toLocaleString").data, ("toString").data,
   ("valueOf").data, ("__proto__").data, ("__defineGetter__").data,
   ("__defineSetter__").data, ("__lookupGetter__").data, ("__lookupSetter__").data]

/-- The resolving branch of the source's `whoisLookup` (mock WHOIS),
reached whenever `mockAges[domain]` yields a number or `undefined`: the
age comes from the mock table (`|| null` also discards a numeric 0),
or else from the random draw — biased to 0-2 years for hosts
containing credential-phishing tokens, 1-11 years otherwise — and is
mapped to a score through the age thresholds. -/
def whoisLookupResolved (domain : List Char) (rand : ℚ) : Signal × ℚ :=
  let ageYears : ℚ :=
    ((((mockAges.find? (fun p => p.1 == domain)).map Prod.snd).bind
        (fun q => if q = 0 then none else some q)).getD
      (if jsIncludes domain (("secure").data) || jsIncludes domain (("login").data) ||
          jsIncludes domain (("verify").data) then
        rand * 2
      else
        rand * 10 + 1))
  let score : Int := if ageYears < (1/2 : ℚ) then 15 else if ageYears < (1 : ℚ) then 10
                     else if ageYears < (2 : ℚ) then 5 else 0
  let status := if ageYears < (1/2 : ℚ) then SigStatus.bad else if ageYears < (1 : ℚ) then SigStatus.warning
                else if ageYears < (2 : ℚ) then SigStatus.warning else SigStatus.good
  ({ id := ("domain-age").data
     name := STRINGS.signals.domainAge
     icon := ("calendar").data
     status := status
     score := score
     maxScore := 15
     explanation := ("Domain registered ").data ++ ratToFixed1 ageYears ++ (" years ago").data
     tooltip := ("Newer domains are more likely to be used for scams. Established domains with years of history are generally more trustworthy.").data
     requiresApi := true }, ageYears)

/-- `whoisLookup` from the source, with its error path.  When `domain`
names an inherited `Object.prototype` property that no own entry of
`mockAges` shadows, `mockAges[domain] || null` yields that truthy
non-number, the random-age branch is skipped, every age comparison is
false (NaN semantics), and `ageYears.toFixed(1)` throws a TypeError —
the mock's promise rejects, modelled as `none`.  On every other domain
it resolves with the signal and age of `whoisLookupResolved`. -/
def whoisLookup (domain : List Char) (rand : ℚ) : Option (Signal × ℚ) :=
  if objectPrototypeKeys.any (fun k => k == domain) &&
      (mockAges.find? (fun p => p.1 == domain)).isNone then
    none
  else
    some (whoisLookupResolved domain rand)

/-- `blacklistLookup` from the source (mock VirusTotal/PhishTank):
detection counts drawn from the mock heuristic, mapped to a score
through the detection thresholds. -/
def blacklistLookup (url : List Char) (rand : ℚ) : Signal :=
  let domain := extractDomain url
  let detections : Int :=
    if jsIncludes domain (("malware").data) || jsIncludes domain (("phishing").data) then
      ⌊rand * 30⌋ + 20
    else if jsIncludes domain (("suspicious").data) then
      ⌊rand * 10⌋ + 2
    else 0
  let score : Int := if detections > 10 then 25 else if detections > 3 then 15
                     else if detections > 0 then 5 else 0
  let status := if detections > 10 then SigStatus.bad
                else if detections > 0 then SigStatus.warning else SigStatus.good
  { id := ("blacklist").data
    name := STRINGS.signals.blacklist
    icon := ("database").data
    status := status
    score := score
    maxScore := 25
    explanation := if detections > 0 then
                     ("Flagged by ").data ++ intRepr detections ++ ("/70 security vendors").data
                   else ("Not found in any security blacklists").data
    tooltip := ("Aggregated results from multiple security vendors including antivirus companies and threat intelligence feeds.").data
    requiresApi := true }

/-- The result record of `analyzeContent`. -/
structure ContentAnalysis where
  signal : Signal
  corsBlocked : Bool
deriving DecidableEq, Repr

/-- `analyzeContent` from the source: on a successful fetch the signal is
good with score 0; on any failure (timeout, CORS block, network error —
the single `catch`) the signal is unknown with score 0 and
`corsBlocked` is reported to the caller. -/
def analyzeContent (_url : List Char) (env : MockEnv) : ContentAnalysis :=
  if env.fetchOk then
    { signal :=
        { id := ("content").data
          name := STRINGS.signals.content
          icon := ("file-text").data
          status := SigStatus.good
          score := 0
          maxScore := 15
          explanation := if env.isHtml then ("Site content appears to be standard HTML").data
                         else ("Unable to determine content type").data
          tooltip := ("Analyzes page content for login forms, credential collection, and suspicious scripts.").data }
      corsBlocked := false }
  else
    { signal :=
        { id := ("content").data
          name := STRINGS.signals.content
          icon := ("file-text").data
          status := SigStatus.unknown
          score := 0
          maxScore := 15
          explanation := ("Content analysis requires server-side fetch (CORS blocked)").data
          tooltip := ("A server-side proxy is needed to fully analyze page content for credential forms and suspicious patterns.").data }
      corsBlocked := true }

/-- `checkRedirects` from the source: always unknown with score 0. -/
def checkRedirects (_url : List Char) : Signal :=
  { id := ("redirect").data
    name := STRINGS.signals.redirect
    icon := ("arrow-right").data
    status := SigStatus.unknown
    score := 0
    maxScore := 15
    explanation := ("Redirect analysis requires server-side fetch").data
    tooltip := ("Checks if the site redirects to unexpected domains, which is common in phishing attacks.").data
    requiresApi := true }

/-- The in-place mutation that `checkSiteSafety` applies to the
URL-Pattern signal when the homograph detector flags the host: add 8 to
the score clamping at 20, force the status to bad, and append the
homograph reason to the explanation. -/
def applyHomographMutation (sig : Signal) (hc : HomographResult) : Signal :=
  if hc.isHomograph then
    { sig with
      score := min (sig.score + 8) 20
      status := SigStatus.bad
      explanation := sig.explanation ++ (". ").data ++ hc.explanation }
  else sig

/-- The full signal list assembled by `checkSiteSafety` before the
display truncation: the two lexical signals (URL-Pattern after the
homograph mutation), then — only when `useApiMocks` is set — the whois,
safe-browsing and blacklist signals in the source's push order, then
the content and redirect signals. -/
def collectedSignals (url : List Char) (useApiMocks : Bool) (env : MockEnv) : List Signal :=
  let sslSignal := checkSsl url
  let urlPatternsSignal := applyHomographMutation (checkUrlPatterns url) (checkHomographAttack url)
  let domain := extractDomain url
  let signals := [sslSignal, urlPatternsSignal]
  let signals :=
    if useApiMocks then
      signals ++ [(whoisLookupResolved domain env.whoisRand).1, safeBrowsingLookup url,
                  blacklistLookup url env.blacklistRand]
    else signals
  signals ++ [(analyzeContent url env).signal, checkRedirects url]

/-- The verdict if-chain of `checkSiteSafety`, producing the verdict and
its display text. -/
def verdictWithText (totalScore : Int) : Verdict × List Char :=
  if totalScore ≤ 10 then (Verdict.safe, STRINGS.safe)
  else if totalScore ≤ 30 then (Verdict.likelySafe, STRINGS.likelySafe)
  else if totalScore ≤ 60 then (Verdict.suspicious, STRINGS.suspicious)
  else (Verdict.scam, STRINGS.scam)

/-- `generateSuggestions` from the source: the fixed template of the
verdict tier, plus one extra suggestion when the SSL signal is bad. -/
def generateSuggestions (verdict : Verdict) (signals : List Signal) : List (List Char) :=
  let suggestions : List (List Char) :=
    match verdict with
    | Verdict.safe =>
      [("This site appears safe to visit").data,
       ("Always verify you\x27re on the correct URL before entering sensitive information").data]
    | Verdict.likelySafe =>
      [("Proceed with normal caution").data,
       ("Verify the URL matches what you expected").data,
       ("Look for the padlock icon in your browser\x27s address bar").data]
    | Verdict.suspicious =>
      [("Be cautious - avoid entering personal or financial information").data,
       ("Verify this is the official site through a trusted source").data,
       ("Consider using a password manager to avoid phishing").data,
       ("Report this site if you believe it\x27s fraudulent").data]
    | Verdict.scam =>
      [("Do NOT enter any personal information on this site").data,
       ("Leave this site immediately").data,
       ("If you entered credentials, change your passwords immediately").data,
       ("Report this site to your bank if financial information was involved").data,
       ("Report to Google Safe Browsing: safebrowsing.google.com/safebrowsing/report_phish/").data]
  match signals.find? (fun s => s.id == ("ssl").data) with
  | some s =>
    if s.status = SigStatus.bad then
      suggestions ++ [("Never enter passwords or credit card info on non-HTTPS sites").data]
    else suggestions
  | none => suggestions

/-- `checkSiteSafety` from the source: collect the signals, sum their
scores, classify the verdict, generate suggestions, and return the
result with the score clamped to 100 and the signal list truncated to
the first 6 entries for display. -/
def checkSiteSafety (url : List Char) (useApiMocks : Bool) (env : MockEnv) : CheckResult :=
  let normalizedUrl := normalizeUrl url
  let signals := collectedSignals url useApiMocks env
  let totalScore := (signals.map Signal.score).sum
  let vt := verdictWithText totalScore
  { url := url
    normalizedUrl := normalizedUrl
    score := min totalScore 100
    verdict := vt.1
    verdictText := vt.2
    signals := signals.take 6
    suggestions := generateSuggestions vt.1 signals
    corsBlocked := (analyzeContent url env).corsBlocked }

/-- Full model of the `checkSiteSafety` promise.  The source awaits all
dispatched lookups with `Promise.all`, which rejects as soon as one of
them rejects; the only component that can reject is the whois mock
(every other evaluator is total or catches its own errors), and it runs
only when `useApiMocks` is set.  A rejected promise delivers no
CheckResult, modelled as `none`; otherwise the promise resolves with
the `checkSiteSafety` assessment. -/
def checkSiteSafetyPromise (url : List Char) (useApiMocks : Bool) (env : MockEnv) :
    Option CheckResult :=
  if useApiMocks && (whoisLookup (extractDomain url) env.whoisRand).isNone then
    none
  else
    some (checkSiteSafety url useApiMocks env)

/-- One entry of the demo test table. -/
structure TestUrl where
  url : List Char
  expectedVerdict : List Char
  description : List Char
deriving DecidableEq, Repr

/-- `TEST_URLS` from the source: the demo inputs with the verdicts the
author expected. -/
def TEST_URLS : List TestUrl :=
  [{ url := ("https://google.com").data, expectedVerdict := ("safe").data,
     description := ("Major trusted site").data },
   { url := ("https://amazon.com").data, expectedVerdict := ("safe").data,
     description := ("Major e-commerce site").data },
   { url := ("http://192.168.1.1/login").data, expectedVerdict := ("suspicious").data,
     description := ("IP address in URL").data },
   { url := ("https://g00gle-secure-login.tk").data, expectedVerdict := ("scam").data,
     description := ("Brand impersonation + suspicious TLD").data },
   { url := ("https://paypal-verify-account.xyz/update").data, expectedVerdict := ("scam").data,
     description := ("Phishing attempt pattern").data },
   { url := ("https://my-small-business.com").data, expectedVerdict := ("likely-safe").data,
     description := ("Normal small business site").data }]


/-- The verdict thresholds as the spec states them: at most 10 is safe,
at most 30 likely-safe, at most 60 suspicious, above that scam. -/
def verdictOf (totalScore : Int) : Verdict :=
  if totalScore ≤ 10 then Verdict.safe
  else if totalScore ≤ 30 then Verdict.likelySafe
  else if totalScore ≤ 60 then Verdict.suspicious
  else Verdict.scam

/-- The per-kind maximum scores the spec assigns to each signal id. -/
def maxScoreOfId (id : List Char) : Int :=
  if id == ("ssl").data then 10
  else if id == ("url-patterns").data then 20
  else if id == ("domain-age").data then 15
  else if id == ("blacklist").data then 25
  else if id == ("content").data then 15
  else if id == ("redirect").data then 15
  else if id == ("safe-browsing").data then 25
  else 0

/-- Severity order of the statuses, with bad maximal. -/
def statusSeverity : SigStatus → Nat
  | SigStatus.good => 0
  | SigStatus.unknown => 1
  | SigStatus.warning => 2
  | SigStatus.bad => 3

/-- The trusted-TLD test of `checkUrlPatterns`. -/
def hasTrustedTldOf (domain : List Char) : Bool :=
  TRUSTED_TLDS.any (fun tld => tld.isSuffixOf domain)

/-- The additive URL-pattern conditions evaluated before the trusted-TLD
subtraction in the source: IP literal and suspicious TLD. -/
def urlPatternEarlyAdds (url : List Char) : Int :=
  let domain := extractDomain url
  (if looksLikeIpv4 domain then 5 else 0) +
  (if SUSPICIOUS_TLDS.any (fun tld => tld.isSuffixOf domain) then 4 else 0)

/-- The additive URL-pattern conditions evaluated after the trusted-TLD
subtraction in the source: excess subdomains, host length, hyphens,
brand token, long query string. -/
def urlPatternLateAdds (url : List Char) : Int :=
  let normalized := normalizeUrl url
  let domain := extractDomain url
  let subdomainCount : Int := (domain.splitOn '.').length - 2
  (if decide (subdomainCount > 3) then 3 else 0) +
  (if decide (domain.length > 50) then 2 else 0) +
  (if decide (domain.count '-' > 2) then 3 else 0) +
  (if BRAND_PATTERNS.any (fun brand =>
      jsIncludes domain brand &&
        !(domain == brand ++ (".com").data || domain == ("www.").data ++ brand ++ (".com").data))
    then 5 else 0) +
  (if (jsHostname normalized).isSome && decide (searchParamsLen normalized > 200) then 2 else 0)

/-- The URL-pattern score as the claim describes it: every additive
condition of the table first, then the trusted-TLD subtraction of 5
with a floor of 0. -/
def urlPatternSpecOrderScore (url : List Char) : Int :=
  let total := urlPatternEarlyAdds url + urlPatternLateAdds url
  if hasTrustedTldOf (extractDomain url) then max 0 (total - 5) else total

/-- Single-trailing-slash normalization, following the spec sentence
word for word: trim, lowercase, strip internal whitespace, prefix
`https://` when no scheme is present, strip a single trailing slash. -/
def normalizeUrlSpecSingle (input : List Char) : List Char :=
  let url := jsStripWs ((jsTrim input).map jsToLowerChar)
  let url :=
    if ("http://".data).isPrefixOf url || ("https://".data).isPrefixOf url then url
    else ("https://".data) ++ url
  if url.getLast? == some '/' then url.dropLast else url

/-- Recursive removal of all trailing slashes, stated independently of
the `reverse`/`dropWhile` formulation used in `dropTrailingSlashes`. -/
def dropTrailingSlashesRec : List Char → List Char
  | [] => []
  | c :: cs =>
    match dropTrailingSlashesRec cs with
    | [] => if c = '/' then [] else [c]
    | r => c :: r

/-- The normalization pipeline as the spec lists it, with the trailing
slash rule amended to strip every trailing slash: trim, lowercase,
strip internal whitespace, prefix `https://` when no scheme is present,
strip all trailing slashes. -/
def normalizeUrlSpecAll (input : List Char) : List Char :=
  let url := jsStripWs ((jsTrim input).map jsToLowerChar)
  let url :=
    if ("http://".data).isPrefixOf url || ("https://".data).isPrefixOf url then url
    else ("https://".data) ++ url
  dropTrailingSlashesRec url

/-- A fixed assessment environment used for concrete evaluations: the
content fetch fails (as it does in a browser for cross-origin targets)
and both random draws are 0. -/
def failEnv : MockEnv :=
  { fetchOk := false, isHtml := false, whoisRand := 0, blacklistRand := 0 }

theorem verdictWithText_fst (t : Int) : (verdictWithText t).1 = verdictOf t := by
  unfold verdictWithText verdictOf
  split_ifs <;> rfl

theorem checkSsl_fields (url : List Char) :
    (checkSsl url).id = ("ssl").data ∧ (checkSsl url).maxScore = 10 ∧
    0 ≤ (checkSsl url).score ∧ (checkSsl url).score ≤ 10 := by
  unfold checkSsl
  refine ⟨rfl, rfl, ?_, ?_⟩ <;> (dsimp only; split <;> omega)

theorem urlPatternScoreSteps_clamped_bounds :
    ∀ b1 b2 b3 b4 b5 b6 b7 b8 : Bool,
      0 ≤ min (urlPatternScoreSteps b1 b2 b3 b4 b5 b6 b7 b8) 20 ∧
      min (urlPatternScoreSteps b1 b2 b3 b4 b5 b6 b7 b8) 20 ≤ 20 := by
  decide

theorem checkUrlPatterns_fields (url : List Char) :
    (checkUrlPatterns url).id = ("url-patterns").data ∧
    (checkUrlPatterns url).maxScore = 20 ∧
    0 ≤ (checkUrlPatterns url).score ∧ (checkUrlPatterns url).score ≤ 20 :=
  ⟨rfl, rfl, (urlPatternScoreSteps_clamped_bounds _ _ _ _ _ _ _ _).1,
   (urlPatternScoreSteps_clamped_bounds _ _ _ _ _ _ _ _).2⟩

theorem whoisLookupResolved_fields (domain : List Char) (rand : ℚ) :
    (whoisLookupResolved domain rand).1.id = ("domain-age").data ∧
    (whoisLookupResolved domain rand).1.maxScore = 15 ∧
    0 ≤ (whoisLookupResolved domain rand).1.score ∧
    (whoisLookupResolved domain rand).1.score ≤ 15 := by
  unfold whoisLookupResolved
  refine ⟨rfl, rfl, ?_, ?_⟩ <;> (dsimp only; split_ifs <;> omega)

theorem safeBrowsingLookup_fields (url : List Char) :
    (safeBrowsingLookup url).id = ("safe-browsing").data ∧
    (safeBrowsingLookup url).maxScore = 25 ∧
    0 ≤ (safeBrowsingLookup url).score ∧ (safeBrowsingLookup url).score ≤ 25 := by
  unfold safeBrowsingLookup
  refine ⟨rfl, rfl, ?_, ?_⟩ <;> (dsimp only; split_ifs <;> omega)

theorem blacklistLookup_fields (url : List Char) (rand : ℚ) :
    (blacklistLookup url rand).id = ("blacklist").data ∧
    (blacklistLookup url rand).maxScore = 25 ∧
    0 ≤ (blacklistLookup url rand).score ∧ (blacklistLookup url rand).score ≤ 25 := by
  unfold blacklistLookup
  refine ⟨rfl, rfl, ?_, ?_⟩ <;> (dsimp only; split_ifs <;> omega)

theorem analyzeContent_fields (url : List Char) (env : MockEnv) :
    (analyzeContent url env).signal.id = ("content").data ∧
    (analyzeContent url env).signal.maxScore = 15 ∧
    (analyzeContent url env).signal.score = 0 := by
  unfold analyzeContent
  split <;> exact ⟨rfl, rfl, rfl⟩

theorem checkRedirects_fields (url : List Char) :
    (checkRedirects url).id = ("redirect").data ∧
    (checkRedirects url).maxScore = 15 ∧
    (checkRedirects url).score = 0 ∧
    (checkRedirects url).status = SigStatus.unknown :=
  ⟨rfl, rfl, rfl, rfl⟩

theorem applyHomographMutation_id (sig : Signal) (hc : HomographResult) :
    (applyHomographMutation sig hc).id = sig.id := by
  unfold applyHomographMutation
  split <;> rfl

theorem applyHomographMutation_maxScore (sig : Signal) (hc : HomographResult) :
    (applyHomographMutation sig hc).maxScore = sig.maxScore := by
  unfold applyHomographMutation
  split <;> rfl

theorem applyHomographMutation_score_bounds (sig : Signal) (hc : HomographResult)
    (h0 : 0 ≤ sig.score) (h20 : sig.score ≤ 20) :
    0 ≤ (applyHomographMutation sig hc).score ∧
    (applyHomographMutation sig hc).score ≤ 20 ∧
    sig.score ≤ (applyHomographMutation sig hc).score := by
  unfold applyHomographMutation
  split
  · dsimp only
    omega
  · exact ⟨h0, h20, le_refl _⟩

theorem collectedSignals_sum_bounds (url : List Char) (useApiMocks : Bool) (env : MockEnv) :
    0 ≤ ((collectedSignals url useApiMocks env).map Signal.score).sum ∧
    ((collectedSignals url useApiMocks env).map Signal.score).sum ≤ 95 := by
  have hup := checkUrlPatterns_fields url
  have hssl := checkSsl_fields url
  have hmut := applyHomographMutation_score_bounds (checkUrlPatterns url)
    (checkHomographAttack url) hup.2.2.1 hup.2.2.2
  have hwho := whoisLookupResolved_fields (extractDomain url) env.whoisRand
  have hsb := safeBrowsingLookup_fields url
  have hbl := blacklistLookup_fields url env.blacklistRand
  have hco := analyzeContent_fields url env
  have hre := checkRedirects_fields url
  unfold collectedSignals
  cases useApiMocks <;>
    simp only [Bool.false_eq_true, if_true, if_false, ite_true, ite_false,
      List.cons_append, List.nil_append, List.append_assoc, List.map_cons,
      List.map_nil, List.sum_cons, List.sum_nil, List.map_append, List.sum_append] <;>
    omega

theorem checkSiteSafety_score_eq (url : List Char) (useApiMocks : Bool) (env : MockEnv) :
    (checkSiteSafety url useApiMocks env).score =
      ((collectedSignals url useApiMocks env).map Signal.score).sum := by
  have h := collectedSignals_sum_bounds url useApiMocks env
  have hs : (checkSiteSafety url useApiMocks env).score =
      min (((collectedSignals url useApiMocks env).map Signal.score).sum) 100 := rfl
  rw [hs, min_eq_left (by omega)]

/-- Claim C1: every assessment returned by checkSiteSafety has a score
between 0 and 100, and its verdict is the threshold function of the
total score: at most 10 safe, at most 30 likely-safe, at most 60
suspicious, above that scam, boundaries inclusive on the lower tier. -/
theorem c1_score_bounds_and_verdict (url : List Char) (useApiMocks : Bool) (env : MockEnv) :
    0 ≤ (checkSiteSafety url useApiMocks env).score ∧
    (checkSiteSafety url useApiMocks env).score ≤ 100 ∧
    (checkSiteSafety url useApiMocks env).verdict =
      verdictOf (checkSiteSafety url useApiMocks env).score := by
  have h := collectedSignals_sum_bounds url useApiMocks env
  have hs := checkSiteSafety_score_eq url useApiMocks env
  have hv : (checkSiteSafety url useApiMocks env).verdict =
      (verdictWithText (((collectedSignals url useApiMocks env).map Signal.score).sum)).1 := rfl
  rw [hs, hv, verdictWithText_fst]
  exact ⟨h.1, by omega, rfl⟩

/-- Claim C2: every signal in the collected signal set — the outputs of
all evaluators, including the homograph-mutated URL-Pattern signal —
has a score between 0 and its maxScore, and its maxScore is the fixed
per-kind maximum (ssl 10, urlPatterns 20, domainAge 15, blacklist 25,
content 15, redirect 15, threatDatabase 25). -/
theorem c2_signal_bounds (url : List Char) (useApiMocks : Bool) (env : MockEnv)
    (s : Signal) (hs : s ∈ collectedSignals url useApiMocks env) :
    0 ≤ s.score ∧ s.score ≤ s.maxScore ∧ s.maxScore = maxScoreOfId s.id := by
  have hssl := checkSsl_fields url
  have hup := checkUrlPatterns_fields url
  have hmutb := applyHomographMutation_score_bounds (checkUrlPatterns url)
    (checkHomographAttack url) hup.2.2.1 hup.2.2.2
  have hmid := applyHomographMutation_id (checkUrlPatterns url) (checkHomographAttack url)
  have hmmax := applyHomographMutation_maxScore (checkUrlPatterns url) (checkHomographAttack url)
  have hwho := whoisLookupResolved_fields (extractDomain url) env.whoisRand
  have hsb := safeBrowsingLookup_fields url
  have hbl := blacklistLookup_fields url env.blacklistRand
  have hco := analyzeContent_fields url env
  have hre := checkRedirects_fields url
  unfold collectedSignals at hs
  cases useApiMocks with
  | false =>
    simp only [Bool.false_eq_true, if_true, if_false, ite_true, ite_false,
      List.cons_append, List.nil_append, List.mem_cons,
      List.not_mem_nil, or_false] at hs
    rcases hs with rfl | rfl | rfl | rfl
    · exact ⟨hssl.2.2.1, by rw [hssl.2.1]; exact hssl.2.2.2, by rw [hssl.2.1, hssl.1]; decide⟩
    · refine ⟨hmutb.1, ?_, ?_⟩
      · rw [hmmax, hup.2.1]; exact hmutb.2.1
      · rw [hmmax, hup.2.1, hmid, hup.1]; decide
    · refine ⟨?_, ?_, ?_⟩
      · rw [hco.2.2]
      · rw [hco.2.2, hco.2.1]; decide
      · rw [hco.2.1, hco.1]; decide
    · refine ⟨?_, ?_, ?_⟩
      · rw [hre.2.2.1]
      · rw [hre.2.2.1, hre.2.1]; decide
      · rw [hre.2.1, hre.1]; decide
  | true =>
    simp only [Bool.false_eq_true, if_true, if_false, ite_true, ite_false,
      List.cons_append, List.nil_append, List.mem_cons,
      List.not_mem_nil, or_false] at hs
    rcases hs with rfl | rfl | rfl | rfl | rfl | rfl | rfl
    · exact ⟨hssl.2.2.1, by rw [hssl.2.1]; exact hssl.2.2.2, by rw [hssl.2.1, hssl.1]; decide⟩
    · refine ⟨hmutb.1, ?_, ?_⟩
      · rw [hmmax, hup.2.1]; exact hmutb.2.1
      · rw [hmmax, hup.2.1, hmid, hup.1]; decide
    · refine ⟨hwho.2.2.1, ?_, ?_⟩
      · rw [hwho.2.1]; exact hwho.2.2.2
      · rw [hwho.2.1, hwho.1]; decide
    · refine ⟨hsb.2.2.1, ?_, ?_⟩
      · rw [hsb.2.1]; exact hsb.2.2.2
      · rw [hsb.2.1, hsb.1]; decide
    · refine ⟨hbl.2.2.1, ?_, ?_⟩
      · rw [hbl.2.1]; exact hbl.2.2.2
      · rw [hbl.2.1, hbl.1]; decide
    · refine ⟨?_, ?_, ?_⟩
      · rw [hco.2.2]
      · rw [hco.2.2, hco.2.1]; decide
      · rw [hco.2.1, hco.1]; decide
    · refine ⟨?_, ?_, ?_⟩
      · rw [hre.2.2.1]
      · rw [hre.2.2.1, hre.2.1]; decide
      · rw [hre.2.1, hre.1]; decide

/-- Witness for C2 at a concrete signal of a concrete assessment. -/
theorem c2_signal_bounds_witness :
    (checkSsl (("https://example.com").data) ∈
      collectedSignals (("https://example.com").data) false failEnv) ∧
    (0 ≤ (checkSsl (("https://example.com").data)).score ∧
      (checkSsl (("https://example.com").data)).score ≤
        (checkSsl (("https://example.com").data)).maxScore ∧
      (checkSsl (("https://example.com").data)).maxScore =
        maxScoreOfId (checkSsl (("https://example.com").data)).id) :=
  ⟨by decide, c2_signal_bounds (("https://example.com").data) false failEnv
    (checkSsl (("https://example.com").data)) (by decide)⟩

theorem statusSeverity_le_three (st : SigStatus) : statusSeverity st ≤ 3 := by
  cases st <;> decide

/-- Claim C3: the homograph mutation adds 8 to the URL-Pattern score
clamped at its maximum 20, forces the status to bad and appends the
homograph reason when the detector flags the host, and otherwise leaves
the signal unchanged; on every input it never decreases the score and
never decreases the status severity. -/
theorem c3_homograph_mutation (url : List Char) :
    ((applyHomographMutation (checkUrlPatterns url) (checkHomographAttack url)).score =
      if (checkHomographAttack url).isHomograph then
        min ((checkUrlPatterns url).score + 8) 20
      else (checkUrlPatterns url).score) ∧
    ((applyHomographMutation (checkUrlPatterns url) (checkHomographAttack url)).status =
      if (checkHomographAttack url).isHomograph then SigStatus.bad
      else (checkUrlPatterns url).status) ∧
    ((applyHomographMutation (checkUrlPatterns url) (checkHomographAttack url)).explanation =
      if (checkHomographAttack url).isHomograph then
        (checkUrlPatterns url).explanation ++ (". ").data ++ (checkHomographAttack url).explanation
      else (checkUrlPatterns url).explanation) ∧
    (checkUrlPatterns url).score ≤
      (applyHomographMutation (checkUrlPatterns url) (checkHomographAttack url)).score ∧
    statusSeverity (checkUrlPatterns url).status ≤
      statusSeverity (applyHomographMutation (checkUrlPatterns url) (checkHomographAttack url)).status := by
  have hup := checkUrlPatterns_fields url
  have hmutb := applyHomographMutation_score_bounds (checkUrlPatterns url)
    (checkHomographAttack url) hup.2.2.1 hup.2.2.2
  cases hh : (checkHomographAttack url).isHomograph with
  | true =>
    refine ⟨?_, ?_, ?_, hmutb.2.2, ?_⟩
    · simp [applyHomographMutation, hh]
    · simp [applyHomographMutation, hh]
    · simp [applyHomographMutation, hh]
    · simp only [applyHomographMutation, hh, if_true, ite_true]
      simpa using statusSeverity_le_three (checkUrlPatterns url).status
  | false =>
    refine ⟨?_, ?_, ?_, hmutb.2.2, ?_⟩
    · simp [applyHomographMutation, hh]
    · simp [applyHomographMutation, hh]
    · simp [applyHomographMutation, hh]
    · simp [applyHomographMutation, hh]

theorem urlPatternScoreSteps_spec_split :
    ∀ b1 b2 b3 b4 b5 b6 b7 b8 : Bool,
      urlPatternScoreSteps b1 b2 b3 b4 b5 b6 b7 b8 =
        (if b3 then max 0 ((if b1 then (5 : Int) else 0) + (if b2 then 4 else 0) - 5)
         else (if b1 then (5 : Int) else 0) + (if b2 then 4 else 0)) +
        ((if b4 then (3 : Int) else 0) + (if b5 then 2 else 0) + (if b6 then 3 else 0) +
         (if b7 then 5 else 0) + (if b8 then 2 else 0)) := by
  decide

/-- Counterexample to claim C4: for `https://a-b-c-d.gov` the source
computes 3 (the trusted-TLD subtraction runs before the hyphen addition,
so the floor-at-0 subtraction eats nothing of the later +3), while the
claimed ordering — subtraction after all additions — yields 0. -/
theorem c4_counterexample :
    (checkUrlPatterns (("https://a-b-c-d.gov").data)).score = 3 ∧
    min (urlPatternSpecOrderScore (("https://a-b-c-d.gov").data)) 20 = 0 ∧
    (checkUrlPatterns (("https://a-b-c-d.gov").data)).score ≠
      min (urlPatternSpecOrderScore (("https://a-b-c-d.gov").data)) 20 := by
  decide

/-- Claim C4 as amended: the trusted-TLD subtraction of 5 with floor 0
is applied after the IP-literal and suspicious-TLD additions but before
the remaining additive conditions (subdomains, host length, hyphens,
brand token, query string), and the result is clamped to 20. -/
theorem c4_amended_trusted_tld_order (url : List Char) :
    (checkUrlPatterns url).score =
      min ((if hasTrustedTldOf (extractDomain url) then max 0 (urlPatternEarlyAdds url - 5)
            else urlPatternEarlyAdds url) + urlPatternLateAdds url) 20 := by
  unfold checkUrlPatterns urlPatternEarlyAdds urlPatternLateAdds hasTrustedTldOf
  dsimp only
  rw [urlPatternScoreSteps_spec_split]

/-- Claim C5 evaluated at its input: for `http://192.168.1.1/login` the
Transport-Security signal is bad with score 10 and the URL-Pattern
score is at least 5, as claimed — but the total score is 23, giving
verdict likely-safe, not the suspicious/scam range the claim (and the
source's own TEST_URLS entry, expecting `suspicious`) requires. -/
theorem c5_ip_scenario_evaluation :
    (checkSsl (("http://192.168.1.1/login").data)).status = SigStatus.bad ∧
    (checkSsl (("http://192.168.1.1/login").data)).score = 10 ∧
    (checkUrlPatterns (("http://192.168.1.1/login").data)).score ≥ 5 ∧
    (checkSiteSafety (("http://192.168.1.1/login").data) false failEnv).score = 23 ∧
    (checkSiteSafety (("http://192.168.1.1/login").data) false failEnv).verdict =
      Verdict.likelySafe ∧
    TEST_URLS.find? (fun t => t.url == ("http://192.168.1.1/login").data) =
      some { url := ("http://192.168.1.1/login").data
             expectedVerdict := ("suspicious").data
             description := ("IP address in URL").data } := by
  decide

/-- Claim C6: any host containing the ASCII digit 0 or 1 is reported as
a homograph (0 and 1 stand in the lookalike table for o and l), and
consequently the assessment's URL-Pattern signal is forced to bad with
its score increased by 8, clamped to 20. -/
theorem c6_digit_lookalike (url : List Char) (useApiMocks : Bool) (env : MockEnv)
    (h : (extractDomain url).contains '0' = true ∨ (extractDomain url).contains '1' = true) :
    (checkHomographAttack url).isHomograph = true ∧
    ∃ s ∈ (checkSiteSafety url useApiMocks env).signals,
      s.id = ("url-patterns").data ∧ s.status = SigStatus.bad ∧
      s.score = min ((checkUrlPatterns url).score + 8) 20 := by
  have hany : lookalikes.any
      (fun p => p.2.any (fun fake => (extractDomain url).contains fake)) = true := by
    have hmem : '0' ∈ extractDomain url ∨ '1' ∈ extractDomain url := by
      rcases h with h | h
      · exact Or.inl (by simpa using h)
      · exact Or.inr (by simpa using h)
    simp [lookalikes]
    tauto
  have hhom : (checkHomographAttack url).isHomograph = true := by
    simp only [checkHomographAttack, hany]
    split
    · rfl
    · split
      · rfl
      · exact absurd trivial (by assumption)
  have hsig : applyHomographMutation (checkUrlPatterns url) (checkHomographAttack url) ∈
      (checkSiteSafety url useApiMocks env).signals := by
    unfold checkSiteSafety collectedSignals
    dsimp only
    cases useApiMocks <;> simp
  refine ⟨hhom, applyHomographMutation (checkUrlPatterns url) (checkHomographAttack url),
    hsig, ?_, ?_, ?_⟩
  · rw [applyHomographMutation_id]; exact (checkUrlPatterns_fields url).1
  · simp [applyHomographMutation, hhom]
  · simp [applyHomographMutation, hhom]

/-- Witness for C6 at the IPv4-literal input. -/
theorem c6_digit_lookalike_witness :
    ((extractDomain (("http://192.168.1.1/login").data)).contains '0' = true ∨
      (extractDomain (("http://192.168.1.1/login").data)).contains '1' = true) ∧
    ((checkHomographAttack (("http://192.168.1.1/login").data)).isHomograph = true ∧
      ∃ s ∈ (checkSiteSafety (("http://192.168.1.1/login").data) false failEnv).signals,
        s.id = ("url-patterns").data ∧ s.status = SigStatus.bad ∧
        s.score = min ((checkUrlPatterns (("http://192.168.1.1/login").data)).score + 8) 20) :=
  ⟨Or.inr (by decide),
   c6_digit_lookalike (("http://192.168.1.1/login").data) false failEnv (Or.inr (by decide))⟩

/-- Claim C7: with external lookups disabled, the returned signal list
is exactly Transport-Security, URL-Pattern, Content-Fetch and
Redirect-Behavior, and never contains the Domain-Age, Threat-Database
or Blacklist signals. -/
theorem c7_signals_without_mocks (url : List Char) (env : MockEnv) :
    ((checkSiteSafety url false env).signals.map Signal.id) =
      [("ssl").data, ("url-patterns").data, ("content").data, ("redirect").data] ∧
    ((checkSiteSafety url false env).signals.all (fun s =>
      !(s.id == ("domain-age").data || s.id == ("safe-browsing").data ||
        s.id == ("blacklist").data))) = true := by
  have hssl := (checkSsl_fields url).1
  have hup := (checkUrlPatterns_fields url).1
  have hmid := applyHomographMutation_id (checkUrlPatterns url) (checkHomographAttack url)
  have hco := (analyzeContent_fields url env).1
  have hre := (checkRedirects_fields url).1
  unfold checkSiteSafety collectedSignals
  dsimp only
  constructor
  · simp [hssl, hup, hmid, hco, hre]
  · simp [hssl, hup, hmid, hco, hre]

/-- Content-fetch failure handling on the resolving path: the
Content-Fetch signal is unknown with score 0 and the result's
degraded-analysis flag (`corsBlocked`) is true. -/
theorem contentFailure_degrades (url : List Char) (useApiMocks : Bool) (env : MockEnv)
    (h : env.fetchOk = false) :
    (checkSiteSafety url useApiMocks env).corsBlocked = true ∧
    ∃ s ∈ (checkSiteSafety url useApiMocks env).signals,
      s.id = ("content").data ∧ s.status = SigStatus.unknown ∧ s.score = 0 := by
  have hca : (analyzeContent url env).corsBlocked = true := by
    simp [analyzeContent, h]
  have hsigU : (analyzeContent url env).signal.status = SigStatus.unknown := by
    simp [analyzeContent, h]
  have hsig0 : (analyzeContent url env).signal.score = 0 := (analyzeContent_fields url env).2.2
  have hsigid : (analyzeContent url env).signal.id = ("content").data :=
    (analyzeContent_fields url env).1
  have hmem : (analyzeContent url env).signal ∈ (checkSiteSafety url useApiMocks env).signals := by
    unfold checkSiteSafety collectedSignals
    dsimp only
    cases useApiMocks <;> simp
  have hcb : (checkSiteSafety url useApiMocks env).corsBlocked =
      (analyzeContent url env).corsBlocked := rfl
  exact ⟨by rw [hcb, hca], (analyzeContent url env).signal, hmem, hsigid, hsigU, hsig0⟩

/-- Claim C8 evaluated with the whois error path modelled: the
Content-Fetch failure itself is handled as the claim says (unknown
status, score 0, `corsBlocked` true), but the assessment does not
always return a CheckResult — for the valid hosts `constructor` and
`__proto__`, with external lookups enabled, the whois mock reads an
inherited `Object.prototype` member, `ageYears.toFixed(1)` throws, and
the promise rejects with no result; without the external lookups the
same input completes. -/
theorem c8_whois_prototype_rejection :
    (analyzeContent (("https://constructor").data) failEnv).signal.status = SigStatus.unknown ∧
    (analyzeContent (("https://constructor").data) failEnv).signal.score = 0 ∧
    (analyzeContent (("https://constructor").data) failEnv).corsBlocked = true ∧
    extractDomain (("https://constructor").data) = ("constructor").data ∧
    whoisLookup (("constructor").data) failEnv.whoisRand = none ∧
    checkSiteSafetyPromise (("https://constructor").data) true failEnv = none ∧
    whoisLookup (("__proto__").data) failEnv.whoisRand = none ∧
    checkSiteSafetyPromise (("https://__proto__").data) true failEnv = none ∧
    checkSiteSafetyPromise (("https://constructor").data) false failEnv =
      some (checkSiteSafety (("https://constructor").data) false failEnv) := by
  decide

theorem jsToLowerChar_idem (c : Char) : jsToLowerChar (jsToLowerChar c) = jsToLowerChar c := by
  have hfix : ∀ p ∈ lowerPairs, jsToLowerChar p.2 = p.2 := by decide
  rcases hf : lowerPairs.find? (fun p => p.1 == c) with _ | p
  · have h1 : jsToLowerChar c = c := by unfold jsToLowerChar; rw [hf]
    rw [h1]
    exact h1
  · have h1 : jsToLowerChar c = p.2 := by unfold jsToLowerChar; rw [hf]
    have hp : p ∈ lowerPairs := List.mem_of_find?_eq_some hf
    rw [h1]
    exact hfix p hp

theorem dropWhile_eq_self_of (p : Char → Bool) (l : List Char)
    (h : ∀ c ∈ l, p c = false) : l.dropWhile p = l := by
  cases l with
  | nil => rfl
  | cons a t =>
    rw [List.dropWhile_cons, h a (by simp)]
    simp

theorem dropWhile_idem (p : Char → Bool) (l : List Char) :
    (l.dropWhile p).dropWhile p = l.dropWhile p := by
  induction l with
  | nil => rfl
  | cons a t ih =>
    by_cases hp : p a
    · simp [List.dropWhile_cons, hp, ih]
    · simp [List.dropWhile_cons, hp]

theorem map_eq_self_of (f : Char → Char) (l : List Char)
    (h : ∀ c ∈ l, f c = c) : l.map f = l := by
  induction l with
  | nil => rfl
  | cons a t ih =>
    simp only [List.map_cons]
    rw [h a (by simp), ih (fun c hc => h c (by simp [hc]))]

theorem mem_of_mem_dropTrailingSlashes {c : Char} {l : List Char}
    (h : c ∈ dropTrailingSlashes l) : c ∈ l := by
  unfold dropTrailingSlashes at h
  have h1 := List.mem_reverse.mp h
  have h2 := (List.dropWhile_sublist (fun ch => ch == '/')).mem h1
  exact List.mem_reverse.mp h2

theorem dropTrailingSlashes_idem (l : List Char) :
    dropTrailingSlashes (dropTrailingSlashes l) = dropTrailingSlashes l := by
  unfold dropTrailingSlashes
  rw [List.reverse_reverse, dropWhile_idem]

theorem https_data_chars :
    ∀ c ∈ ("https://".data), isJsWs c = false ∧ jsToLowerChar c = c := by
  decide

theorem stripWs_map_chars (x : List Char) :
    ∀ c ∈ jsStripWs ((jsTrim x).map jsToLowerChar),
      isJsWs c = false ∧ jsToLowerChar c = c := by
  intro c hc
  unfold jsStripWs at hc
  obtain ⟨hmem, hws⟩ := List.mem_filter.mp hc
  refine ⟨by simpa using hws, ?_⟩
  obtain ⟨a, _, ha⟩ := List.mem_map.mp hmem
  rw [← ha, jsToLowerChar_idem]

theorem normalizeUrl_chars (x : List Char) :
    ∀ c ∈ normalizeUrl x, isJsWs c = false ∧ jsToLowerChar c = c := by
  intro c hc
  unfold normalizeUrl at hc
  dsimp only at hc
  have hc1 := mem_of_mem_dropTrailingSlashes hc
  by_cases hcond : (("http://".data).isPrefixOf (jsStripWs ((jsTrim x).map jsToLowerChar)) ||
      ("https://".data).isPrefixOf (jsStripWs ((jsTrim x).map jsToLowerChar))) = true
  · rw [if_pos hcond] at hc1
    exact stripWs_map_chars x c hc1
  · rw [if_neg hcond] at hc1
    rcases List.mem_append.mp hc1 with hhttps | hrest
    · exact https_data_chars c hhttps
    · exact stripWs_map_chars x c hrest

/-- Counterexample to claim C9: `normalizeUrl` is not idempotent.  On
the empty string it yields `https:` (the trailing-slash strip eats the
scheme's slashes), and renormalizing that yields `https://https:`. -/
theorem c9_counterexample :
    normalizeUrl ("".data) = ("https:".data) ∧
    normalizeUrl (normalizeUrl ("".data)) = ("https://https:".data) ∧
    normalizeUrl (normalizeUrl ("".data)) ≠ normalizeUrl ("".data) := by
  decide

/-- Claim C9 as amended: `normalizeUrl` is idempotent on every input
whose normal form still carries its `http://` or `https://` scheme
prefix — equivalently, on all inputs except those whose normal form
degenerates to a bare scheme such as `https:`. -/
theorem c9_amended_idempotent_on_schemed (x : List Char)
    (h : (("http://".data).isPrefixOf (normalizeUrl x) ||
          ("https://".data).isPrefixOf (normalizeUrl x)) = true) :
    normalizeUrl (normalizeUrl x) = normalizeUrl x := by
  set w := normalizeUrl x with hw
  have hchars := normalizeUrl_chars x
  have hws : ∀ c ∈ w, isJsWs c = false := fun c hc => (hchars c hc).1
  have hlower : ∀ c ∈ w, jsToLowerChar c = c := fun c hc => (hchars c hc).2
  have htrim : jsTrim w = w := by
    unfold jsTrim
    rw [dropWhile_eq_self_of _ _ hws,
      dropWhile_eq_self_of _ _ (fun c hc => hws c (List.mem_reverse.mp hc)),
      List.reverse_reverse]
  have hmap : w.map jsToLowerChar = w := map_eq_self_of _ _ hlower
  have hstrip : jsStripWs w = w := by
    unfold jsStripWs
    exact List.filter_eq_self.mpr (fun a ha => by simp [hws a ha])
  have hdts : dropTrailingSlashes w = w := by
    rw [hw]
    show dropTrailingSlashes (normalizeUrl x) = normalizeUrl x
    unfold normalizeUrl
    dsimp only
    rw [dropTrailingSlashes_idem]
  have hpre : jsStripWs ((jsTrim w).map jsToLowerChar) = w := by
    rw [htrim, hmap, hstrip]
  show normalizeUrl w = w
  unfold normalizeUrl
  dsimp only
  rw [hpre, if_pos h, hdts]

/-- Witness for the amended C9 at a concrete input. -/
theorem c9_amended_idempotent_on_schemed_witness :
    ((("http://".data).isPrefixOf (normalizeUrl (("example.com").data)) ||
      ("https://".data).isPrefixOf (normalizeUrl (("example.com").data))) = true) ∧
    normalizeUrl (normalizeUrl (("example.com").data)) = normalizeUrl (("example.com").data) :=
  ⟨by decide, c9_amended_idempotent_on_schemed (("example.com").data) (by decide)⟩

theorem dropTrailingSlashesRec_eq (l : List Char) :
    dropTrailingSlashesRec l = dropTrailingSlashes l := by
  induction l with
  | nil => rfl
  | cons a t ih =>
    have hrw : dropTrailingSlashes (a :: t) =
        (if (t.reverse.dropWhile (fun c => c == '/')).isEmpty
         then [a].dropWhile (fun c => c == '/')
         else t.reverse.dropWhile (fun c => c == '/') ++ [a]).reverse := by
      unfold dropTrailingSlashes
      rw [List.reverse_cons, List.dropWhile_append]
    rw [hrw]
    by_cases he : (t.reverse.dropWhile (fun c => c == '/')).isEmpty
    · have ht : dropTrailingSlashesRec t = [] := by
        rw [ih]
        unfold dropTrailingSlashes
        rw [List.isEmpty_iff.mp he]
        rfl
      rw [if_pos he]
      unfold dropTrailingSlashesRec
      rw [ht]
      by_cases ha : a = '/'
      · simp [ha, List.dropWhile_cons]
      · simp [ha, List.dropWhile_cons]
    · have ht : dropTrailingSlashesRec t ≠ [] := by
        rw [ih]
        unfold dropTrailingSlashes
        intro hnil
        apply he
        have hd := List.reverse_eq_nil_iff.mp hnil
        simp [hd]
      rw [if_neg he]
      have hl : dropTrailingSlashesRec (a :: t) = a :: dropTrailingSlashesRec t := by
        rcases hr : dropTrailingSlashesRec t with _ | ⟨b, bs⟩
        · exact absurd hr ht
        · unfold dropTrailingSlashesRec
          rw [hr]
      rw [hl, ih, List.reverse_append]
      unfold dropTrailingSlashes
      simp

/-- Counterexample to claim C10: the source strips every trailing slash,
not a single one.  On `example.com//` the source yields
`https://example.com` whereas the spec's single-slash normalization
yields `https://example.com/`. -/
theorem c10_counterexample :
    normalizeUrl (("example.com//").data) = ("https://example.com").data ∧
    normalizeUrlSpecSingle (("example.com//").data) = ("https://example.com/").data ∧
    normalizeUrl (("example.com//").data) ≠ normalizeUrlSpecSingle (("example.com//").data) := by
  decide

/-- Claim C10 as amended: `normalizeUrl` is the total deterministic
pipeline the spec lists — trim, lowercase, strip internal whitespace,
prefix `https://` when no scheme prefix is present — except that the
final step strips all trailing slashes rather than a single one. -/
theorem c10_amended_normalize_pipeline (input : List Char) :
    normalizeUrl input = normalizeUrlSpecAll input := by
  unfold normalizeUrl normalizeUrlSpecAll
  dsimp only
  rw [dropTrailingSlashesRec_eq]
